import Mathlib

/-!
Verification of the whisper transcription service (`main.py`) and the
standalone CLI (`transcribe.py`) against their natural-language
specification.  The Python code is shallowly embedded: the request
handler becomes a pure function from the upload, the ambient model
state and an oracle describing the environment (filesystem failures,
engine outcome) to an outcome paired with a trace of staging events;
the CLI `main` becomes a pure function of `argv`, a file-existence
oracle and the engine outcome.
-/

namespace WhisperService

/-- Result returned by the inference engine's `transcribe` call: a Python
dict that may carry a `text` and a `language` key (`result.get` treats
either as optional). -/
structure EngineResult where
  text : Option String
  language : Option String
  deriving Repr, DecidableEq

/-- An incoming multipart upload: `UploadFile.filename` and
`UploadFile.content_type` are both `Optional[str]` in FastAPI; the raw
payload is a byte list. -/
structure Upload where
  filename : Option String
  contentType : Option String
  contents : List Nat
  deriving Repr, DecidableEq

/-- `allowed_types` from `main.py` (line 91). -/
def allowed_types : List String :=
  ["audio/mpeg", "audio/wav", "audio/webm", "audio/mp4", "audio/ogg",
   "audio/flac", "audio/x-flac"]

/-- `allowed_extensions` from `main.py` (line 100). -/
def allowed_extensions : List String :=
  [".mp3", ".wav", ".webm", ".m4a", ".ogg", ".flac"]

/-- Python's `str.lower()`, restricted to ASCII case mapping (the only
characters the allow-list comparisons can be sensitive to). -/
def pyLower (s : String) : String := ⟨s.data.map Char.toLower⟩

/-- Python's `str.endswith(suffix)` as a suffix test on the character
lists. -/
def endsWithL (s suffix : String) : Bool := suffix.data.isSuffixOf s.data

/-- Membership of a whitespace character for Python's `str.strip()`
(the ASCII whitespace set). -/
def pyIsSpace (c : Char) : Bool :=
  c == ' ' || c == '\t' || c == '\n' || c == '\r' || c == '\x0b' || c == '\x0c'

/-- Python's `str.strip()`: remove leading and trailing whitespace. -/
def pyStrip (s : String) : String :=
  ⟨((s.data.dropWhile pyIsSpace).reverse.dropWhile pyIsSpace).reverse⟩

/-- `file.content_type not in allowed_types`, negated: a `None` content
type is never a member of the list. -/
def ctAllowed : Option String → Bool
  | none => false
  | some c => allowed_types.contains c

/-- `any(file.filename.lower().endswith(ext) for ext in allowed_extensions)`
for a filename known to be a string. -/
def extAccepts (f : String) : Bool :=
  allowed_extensions.any (fun e => endsWithL (pyLower f) e)

/-- Outcome of evaluating the validation condition at `main.py` lines
103-106.  Python evaluates `file.content_type not in allowed_types`
first; only when that is `True` does it evaluate
`file.filename.lower()`, which raises `AttributeError` when the
filename is `None`. -/
inductive ValidationResult where
  | accept
  | reject
  | crashAttrError
  deriving Repr, DecidableEq

/-- The validation condition of `transcribe_audio` (`main.py` 103-110),
including the short-circuit order of the Python `and`. -/
def validate (ct : Option String) (fn : Option String) : ValidationResult :=
  if ctAllowed ct then .accept
  else
    match fn with
    | none => .crashAttrError
    | some f => if extAccepts f then .accept else .reject

/-- Last index of `c` in `l` (accumulator-style scan), used to embed
CPython's `str.rfind`. -/
def lastIndexOfAux (c : Char) : List Char → Nat → Option Nat → Option Nat
  | [], _, acc => acc
  | x :: xs, i, acc => lastIndexOfAux c xs (i + 1) (if x = c then some i else acc)

/-- `p.rfind(c)`: last index of `c`, or `none` when absent. -/
def lastIndexOf (l : List Char) (c : Char) : Option Nat :=
  lastIndexOfAux c l 0 none

/-- `os.path.splitext` as implemented by CPython's `genericpath._splitext`
with `sep = '/'`, no `altsep`, `extsep = '.'`: the extension starts at
the last dot after the last separator, unless every character between
the separator and that dot is itself a dot (leading dots of a basename
do not begin an extension). -/
def splitext (p : String) : String × String :=
  let l := p.data
  let sepIndex : Int := match lastIndexOf l '/' with | some i => (i : Int) | none => -1
  let dotIndex : Int := match lastIndexOf l '.' with | some i => (i : Int) | none => -1
  if dotIndex > sepIndex then
    let s : Nat := (sepIndex + 1).toNat
    let d : Nat := dotIndex.toNat
    if (List.range (d - s)).any (fun k => l.getD (s + k) '.' ≠ '.') then
      (String.mk (l.take d), String.mk (l.drop d))
    else (p, "")
  else (p, "")

/-- `file_extension = os.path.splitext(file.filename)[1] if file.filename
else ".tmp"` (`main.py` line 116).  Python truthiness: both `None` and
the empty string select the `".tmp"` fallback. -/
def stagedSuffix (fn : Option String) : String :=
  match fn with
  | none => ".tmp"
  | some f => if f = "" then ".tmp" else (splitext f).2

/-- Observable staging/cleanup events of one request, in program order:
creation of the named temporary file, a successful `os.unlink`, an
`os.unlink` that raised, and the warning logged for the latter. -/
inductive Event where
  | stage (name : String)
  | unlinkOk (name : String)
  | unlinkFailed (name : String) (err : String)
  | warnLog (msg : String)
  deriving Repr, DecidableEq

/-- Environment oracle for one request: whether
`tempfile.NamedTemporaryFile` raises, whether `temp_file.write` /
`temp_file.close` raise, what `model.transcribe` returns or raises, and
whether `os.unlink` raises during cleanup.  `tempBase` is the unique
basename `tempfile` allocates (the suffix is appended by the handler's
`suffix=` argument). -/
structure World where
  tempBase : String
  createFails : Option String
  writeFails : Option String
  transcribeResult : Except String EngineResult
  unlinkFails : Option String
  deriving Repr

/-- The success payload built at `main.py` lines 127-132. -/
structure TranscribeResponse where
  filename : Option String
  transcription : String
  language : String
  success : Bool
  deriving Repr, DecidableEq

/-- `response = {"filename": ..., "transcription": result.get("text", "").strip(),
"language": result.get("language", "unknown"), "success": True}`. -/
def buildResponse (fn : Option String) (r : EngineResult) : TranscribeResponse :=
  { filename := fn
  , transcription := pyStrip (r.text.getD "")
  , language := r.language.getD "unknown"
  , success := true }

/-- Terminal outcome of one request to `POST /transcribe`: a JSON
success payload, an `HTTPException(status, detail)`, or an uncaught
`AttributeError` escaping the handler. -/
inductive HandlerOutcome where
  | ok (resp : TranscribeResponse)
  | httpError (status : Nat) (detail : String)
  | attrError
  deriving Repr, DecidableEq

/-- The rejection message at `main.py` line 109. -/
def rejectDetail : String :=
  "Unsupported file type. Please upload a valid audio file (mp3, wav, webm, m4a, ogg, flac)."

/-- Events emitted by the `finally` block (`main.py` 141-147) once a
temporary file named `name` has been created.  Inside one request
nothing removes the file before cleanup, so the `os.path.exists` guard
is true; `os.unlink` either succeeds or raises, and a raise is caught
and logged as a warning. -/
def cleanupEvents (name : String) (w : World) : List Event :=
  match w.unlinkFails with
  | none => [.unlinkOk name]
  | some err => [.unlinkFailed name err,
                 .warnLog ("Failed to clean up temporary file: " ++ err)]

/-- The staged phase of `transcribe_audio` (`main.py` 112-147): the
`try/except/finally` entered after validation passed.  If
`NamedTemporaryFile` itself raises, `temp_file` is still `None`, so the
`finally` guard skips cleanup; once the file exists, every exit path
runs cleanup. -/
def stagedPhase (u : Upload) (w : World) : HandlerOutcome × List Event :=
  match w.createFails with
  | some e => (.httpError 500 ("Error during transcription: " ++ e), [])
  | none =>
    let name := w.tempBase ++ stagedSuffix u.filename
    match w.writeFails with
    | some e =>
        (.httpError 500 ("Error during transcription: " ++ e),
         .stage name :: cleanupEvents name w)
    | none =>
      match w.transcribeResult with
      | .error e =>
          (.httpError 500 ("Error during transcription: " ++ e),
           .stage name :: cleanupEvents name w)
      | .ok r =>
          (.ok (buildResponse u.filename r),
           .stage name :: cleanupEvents name w)

/-- `transcribe_audio` (`main.py` 77-147): readiness precondition,
validation, then the staged try/except/finally phase. -/
def transcribe_audio (modelLoaded : Bool) (u : Upload) (w : World) :
    HandlerOutcome × List Event :=
  if ¬ modelLoaded then (.httpError 500 "Whisper model not loaded", [])
  else
    match validate u.contentType u.filename with
    | .crashAttrError => (.attrError, [])
    | .reject => (.httpError 400 rejectDetail, [])
    | .accept => stagedPhase u w

/-! ### The standalone CLI, `transcribe.py` -/

/-- The success payload printed by `transcribe.py` (lines 40-44). -/
structure CliSuccess where
  transcription : String
  language : String
  success : Bool
  deriving Repr, DecidableEq

/-- Terminal outcome of `transcribe.py`'s `main`: either
`{"error": msg, "success": false}` on standard error with exit status 1,
or a success payload on standard output with exit status 0. -/
inductive CliOutcome where
  | errExit (msg : String)
  | okExit (res : CliSuccess)
  deriving Repr, DecidableEq

/-- Building the CLI response from the engine result (`transcribe.py`
lines 40-44): `result["text"]` raises `KeyError('text')` when the key
is missing (its `str` is `'text'` with quotes), while `language` uses
`result.get` with the `"unknown"` default. -/
def cliTranscribeStep (r : EngineResult) : Except String CliSuccess :=
  match r.text with
  | none => .error "'text'"
  | some t =>
      .ok { transcription := pyStrip t
          , language := r.language.getD "unknown"
          , success := true }

/-- `main` of `transcribe.py` (lines 9-54): `argv` is the full
`sys.argv` including the program name; `fexists` is `os.path.exists`;
`engine` is the combined outcome of `whisper.load_model` and
`model.transcribe`, both inside the same `try` whose `except` prefixes
the message with `"Error during transcription: "`. -/
def cliMain (argv : List String) (fexists : String → Bool)
    (engine : Except String EngineResult) : CliOutcome :=
  match argv with
  | [_, path] =>
    if ¬ fexists path then
      .errExit ("Audio file '" ++ path ++ "' not found")
    else
      match engine with
      | .error e => .errExit ("Error during transcription: " ++ e)
      | .ok r =>
        match cliTranscribeStep r with
        | .error e => .errExit ("Error during transcription: " ++ e)
        | .ok s => .okExit s
  | _ => .errExit "Usage: python transcribe.py <audio_file_path>"

/-! ### Service state machine, `main.py` globals and routes -/

/-- Opaque handle to a loaded whisper model (the engine is an external
collaborator; only identity matters to the service). -/
structure ModelHandle where
  id : Nat
  deriving Repr, DecidableEq

/-- The service's only mutable state: the module-level `model` global of
`main.py` (line 40), `None` until startup assigns it. -/
structure ServerState where
  model : Option ModelHandle
  deriving Repr, DecidableEq

/-- State at process start: `model = None`. -/
def initState : ServerState := { model := none }

/-- Externally triggered operations of the service process:
the startup hook `load_whisper_model` with the outcome of
`whisper.load_model`, and the three routes. -/
inductive ServerEvent where
  | startupLoad (r : Except String ModelHandle)
  | getRoot
  | getHealth
  | postTranscribe (u : Upload) (w : World)

/-- Effect of each operation on the `model` global.  Only
`load_whisper_model` (`main.py` 43-54) assigns `model`, and only on a
successful `whisper.load_model`; on failure it re-raises (aborting
startup) without assigning.  No route handler writes `model`. -/
def serverStep (s : ServerState) (e : ServerEvent) : ServerState :=
  match e with
  | .startupLoad (.ok m) => { model := some m }
  | .startupLoad (.error _) => s
  | .getRoot => s
  | .getHealth => s
  | .postTranscribe _ _ => s

/-- Payload of `GET /health` (`main.py` 66-74).  The loaded model object
is always truthy, so `"healthy" if model else "unhealthy"` agrees with
`model is not None`. -/
structure HealthResponse where
  status : String
  service : String
  model_loaded : Bool
  version : String
  deriving Repr, DecidableEq

/-- `health_check` (`main.py` 66-74). -/
def health_check (s : ServerState) : HealthResponse :=
  { status := if s.model.isSome then "healthy" else "unhealthy"
  , service := "whisper-transcription"
  , model_loaded := s.model.isSome
  , version := "1.0.0" }

/-- Serving `POST /transcribe` in state `s`: the handler reads the
`model` global for its readiness check (`main.py` line 88). -/
def serveTranscribe (s : ServerState) (u : Upload) (w : World) :
    HandlerOutcome × List Event :=
  transcribe_audio s.model.isSome u w

/-! ### Claim-side predicates and helpers -/

/-- The acceptance policy as the specification words it: the declared
content type is a member of the fixed allow-list, OR the filename's
extension, compared case-insensitively, is a member of the extension
allow-list (an absent value satisfies neither disjunct).  Written
independently of `validate` for comparison. -/
def specAccepts (ct : Option String) (fn : Option String) : Bool :=
  (match ct with
   | some c => ["audio/mpeg", "audio/wav", "audio/webm", "audio/mp4",
                "audio/ogg", "audio/flac", "audio/x-flac"].contains c
   | none => false)
  || (match fn with
      | some f => [".mp3", ".wav", ".webm", ".m4a", ".ogg", ".flac"].any
                    (fun e => endsWithL (pyLower f) e)
      | none => false)

/-- Recognizes a staging event in a request trace. -/
def isStageEvent : Event → Bool
  | .stage _ => true
  | _ => false

/-- Recognizes a release attempt (a call to `os.unlink`, successful or
raising) in a request trace. -/
def isReleaseAttempt : Event → Bool
  | .unlinkOk _ => true
  | .unlinkFailed _ _ => true
  | _ => false

/-- A fixed benign environment used to instantiate universally
quantified theorems at concrete inputs. -/
def sampleWorld : World :=
  { tempBase := "tmp123"
  , createFails := none
  , writeFails := none
  , transcribeResult := .ok { text := some " hello ", language := some "en" }
  , unlinkFails := none }

/-! ### Theorems -/

/-- C2: For every upload, validation accepts if and only if the declared
content type is in {audio/mpeg, audio/wav, audio/webm, audio/mp4,
audio/ogg, audio/flac, audio/x-flac} or the filename's extension,
compared case-insensitively, is in {.mp3, .wav, .webm, .m4a, .ogg,
.flac}; each disjunct alone suffices regardless of the other. -/
theorem validate_accept_iff_specAccepts (ct fn : Option String) :
    validate ct fn = .accept ↔ specAccepts ct fn = true := by
  have hs : specAccepts ct fn =
      (ctAllowed ct || (match fn with | some f => extAccepts f | none => false)) := by
    cases ct <;> cases fn <;> rfl
  rw [hs]
  unfold validate
  cases h : ctAllowed ct with
  | true => simp
  | false =>
    cases fn with
    | none => simp
    | some f => cases he : extAccepts f <;> simp [he]

/-- C5: While the model is not loaded, every request to `POST /transcribe`
short-circuits to a 500 response saying the model is not loaded, with an
empty event trace (no validation outcome matters, no file staged). -/
theorem not_loaded_short_circuit (u : Upload) (w : World) :
    transcribe_audio false u w = (.httpError 500 "Whisper model not loaded", []) :=
  rfl

/-- C3: When the declared content type is outside the allow-list and the
(present) filename fails the extension check, the handler answers with
the 400 `HTTPException` and its human-readable detail, and the event
trace is empty: no temporary file is ever staged. -/
theorem reject_no_staging (u : Upload) (w : World) (f : String)
    (hf : u.filename = some f) (hct : ctAllowed u.contentType = false)
    (hext : extAccepts f = false) :
    transcribe_audio true u w = (.httpError 400 rejectDetail, []) := by
  unfold transcribe_audio validate
  rw [hf, hct]
  simp [hext]

/-- Witness for C3 at the spec's Scenario B: `notes.txt` declared as
`text/plain` is rejected with the 400 detail and no staging occurs. -/
theorem reject_no_staging_witness :
    transcribe_audio true ⟨some "notes.txt", some "text/plain", []⟩ sampleWorld =
      (.httpError 400 rejectDetail, []) :=
  reject_no_staging ⟨some "notes.txt", some "text/plain", []⟩ sampleWorld
    "notes.txt" rfl (by decide) (by decide)

/-- Helper: with the model loaded, an accepted upload, successful
staging and a successful inference call, the handler's outcome is the
built response. -/
theorem transcribe_ok_outcome (u : Upload) (w : World) (r : EngineResult)
    (hv : validate u.contentType u.filename = .accept)
    (hc : w.createFails = none) (hw : w.writeFails = none)
    (htr : w.transcribeResult = .ok r) :
    (transcribe_audio true u w).1 = .ok (buildResponse u.filename r) := by
  unfold transcribe_audio stagedPhase
  rw [hv, hc, hw, htr]
  simp

/-- C4: Whenever validation accepts, staging succeeds and the engine
returns a result carrying a text, the response is: the engine's text
with surrounding whitespace trimmed, the detected language (or the
sentinel "unknown" when omitted), the upload's original filename, and
`success = true`. -/
theorem success_response_shape (u : Upload) (w : World) (r : EngineResult) (t : String)
    (hv : validate u.contentType u.filename = .accept)
    (hc : w.createFails = none) (hw : w.writeFails = none)
    (htr : w.transcribeResult = .ok r) (ht : r.text = some t) :
    (transcribe_audio true u w).1 =
      .ok { filename := u.filename
          , transcription := pyStrip t
          , language := r.language.getD "unknown"
          , success := true } := by
  rw [transcribe_ok_outcome u w r hv hc hw htr]
  simp [buildResponse, ht]

/-- Witness for C4 at a concrete accepted upload with engine text
`" hello "` and language `"en"`. -/
theorem success_response_shape_witness :
    (transcribe_audio true ⟨some "greeting.wav", some "audio/wav", [1, 2]⟩ sampleWorld).1 =
      .ok { filename := some "greeting.wav"
          , transcription := "hello"
          , language := "en"
          , success := true } :=
  success_response_shape ⟨some "greeting.wav", some "audio/wav", [1, 2]⟩ sampleWorld
    { text := some " hello ", language := some "en" } " hello "
    (by decide) rfl rfl rfl rfl

/-- C10: With the model loaded, an upload whose filename is absent and
whose content type fails the allow-list check makes the validation
expression dereference `None.lower()`: the handler exits with an
uncaught `AttributeError` (no 400 rejection, no staging). -/
theorem none_filename_attr_error (u : Upload) (w : World)
    (hf : u.filename = none) (hct : ctAllowed u.contentType = false) :
    transcribe_audio true u w = (.attrError, []) := by
  unfold transcribe_audio validate
  rw [hf, hct]
  simp

/-- Witness for C10: a `text/plain` upload without a filename crashes
with `AttributeError` instead of the documented 400. -/
theorem none_filename_attr_error_witness :
    transcribe_audio true ⟨none, some "text/plain", [7]⟩ sampleWorld = (.attrError, []) :=
  none_filename_attr_error ⟨none, some "text/plain", [7]⟩ sampleWorld rfl (by decide)

/-- Shape of a request trace: either nothing was staged, or the trace is
exactly one staging of the suffixed temporary name followed by the
cleanup events; and the outcome never depends on whether `os.unlink`
raises during cleanup. -/
theorem transcribe_trace_shape (m : Bool) (u : Upload) (w : World) :
    ((transcribe_audio m u w).2 = [] ∨
      (transcribe_audio m u w).2 =
        .stage (w.tempBase ++ stagedSuffix u.filename) ::
          cleanupEvents (w.tempBase ++ stagedSuffix u.filename) w) ∧
    (transcribe_audio m u { w with unlinkFails := none }).1 =
      (transcribe_audio m u w).1 := by
  obtain ⟨tb, cf, wf, tr, uf⟩ := w
  cases m with
  | false => exact ⟨Or.inl rfl, rfl⟩
  | true =>
    unfold transcribe_audio stagedPhase cleanupEvents
    cases hv : validate u.contentType u.filename <;>
      cases cf <;> cases wf <;> cases tr <;> cases uf <;> simp [hv]

/-- C1: In every request in which a temporary file is staged, exactly one
staging and exactly one release attempt occur; the staged name is
unlinked successfully or the failed unlink is logged as a warning; and
the response is the same as it would have been had the unlink not
raised. -/
theorem staged_file_release (m : Bool) (u : Upload) (w : World) (n : String)
    (hstage : Event.stage n ∈ (transcribe_audio m u w).2) :
    ((transcribe_audio m u w).2.filter isStageEvent).length = 1 ∧
    ((transcribe_audio m u w).2.filter isReleaseAttempt).length = 1 ∧
    (Event.unlinkOk n ∈ (transcribe_audio m u w).2 ∨
      ∃ e, Event.unlinkFailed n e ∈ (transcribe_audio m u w).2 ∧
        Event.warnLog ("Failed to clean up temporary file: " ++ e) ∈
          (transcribe_audio m u w).2) ∧
    (transcribe_audio m u { w with unlinkFails := none }).1 =
      (transcribe_audio m u w).1 := by
  obtain ⟨hshape, hout⟩ := transcribe_trace_shape m u w
  rcases hshape with h | h
  · rw [h] at hstage
    simp at hstage
  · have hn : n = w.tempBase ++ stagedSuffix u.filename := by
      rw [h] at hstage
      cases huf : w.unlinkFails <;> simp [cleanupEvents, huf] at hstage <;>
        exact hstage
    subst hn
    refine ⟨?_, ?_, ?_, hout⟩
    · rw [h]
      cases huf : w.unlinkFails <;> simp [cleanupEvents, huf, isStageEvent]
    · rw [h]
      cases huf : w.unlinkFails <;>
        simp [cleanupEvents, huf, isStageEvent, isReleaseAttempt]
    · rw [h]
      cases huf : w.unlinkFails with
      | none => exact Or.inl (by simp [cleanupEvents, huf])
      | some err =>
          exact Or.inr ⟨err, by simp [cleanupEvents, huf], by simp [cleanupEvents, huf]⟩

/-- Witness for C1 at a concrete accepted `.mp3` upload in the benign
environment: one staging of `tmp123.mp3`, one release attempt, same
response with and without an unlink failure. -/
theorem staged_file_release_witness :
    ((transcribe_audio true ⟨some "a.mp3", some "audio/mpeg", []⟩ sampleWorld).2.filter
        isStageEvent).length = 1 ∧
    ((transcribe_audio true ⟨some "a.mp3", some "audio/mpeg", []⟩ sampleWorld).2.filter
        isReleaseAttempt).length = 1 ∧
    (transcribe_audio true ⟨some "a.mp3", some "audio/mpeg", []⟩
        { sampleWorld with unlinkFails := none }).1 =
      (transcribe_audio true ⟨some "a.mp3", some "audio/mpeg", []⟩ sampleWorld).1 :=
  let h := staged_file_release true ⟨some "a.mp3", some "audio/mpeg", []⟩ sampleWorld
    "tmp123.mp3" (by decide)
  ⟨h.1, h.2.1, h.2.2.2⟩

/-- C6: The CLI prints the usage error for any argument count other than
two, the not-found error when the path does not exist, and the
transcription error when the engine raises, each to standard error with
exit status 1; on success it prints the trimmed transcription,
detected-or-"unknown" language and `success = true` to standard output
with exit status 0. -/
theorem cli_contract :
    (∀ (argv : List String) (fex : String → Bool) (eng : Except String EngineResult),
        argv.length ≠ 2 →
          cliMain argv fex eng =
            .errExit "Usage: python transcribe.py <audio_file_path>") ∧
    (∀ (prog path : String) (fex : String → Bool) (eng : Except String EngineResult),
        fex path = false →
          cliMain [prog, path] fex eng =
            .errExit ("Audio file '" ++ path ++ "' not found")) ∧
    (∀ (prog path : String) (fex : String → Bool) (e : String),
        fex path = true →
          cliMain [prog, path] fex (.error e) =
            .errExit ("Error during transcription: " ++ e)) ∧
    (∀ (prog path : String) (fex : String → Bool) (r : EngineResult) (t : String),
        fex path = true → r.text = some t →
          cliMain [prog, path] fex (.ok r) =
            .okExit { transcription := pyStrip t
                    , language := r.language.getD "unknown"
                    , success := true }) := by
  refine ⟨?_, ?_, ?_, ?_⟩
  · intro argv fex eng hlen
    match argv with
    | [] => rfl
    | [a] => rfl
    | [a, b] => exact absurd rfl hlen
    | a :: b :: c :: rest => rfl
  · intro prog path fex eng hf
    simp [cliMain, hf]
  · intro prog path fex e hf
    simp [cliMain, hf]
  · intro prog path fex r t hf ht
    simp [cliMain, hf, cliTranscribeStep, ht]

/-- Witness for C6: concrete runs of all four CLI outcomes. -/
theorem cli_contract_witness :
    cliMain ["transcribe.py"] (fun _ => true) (.ok ⟨some "x", some "en"⟩) =
      .errExit "Usage: python transcribe.py <audio_file_path>" ∧
    cliMain ["transcribe.py", "a.mp3"] (fun _ => false) (.ok ⟨some "x", some "en"⟩) =
      .errExit "Audio file 'a.mp3' not found" ∧
    cliMain ["transcribe.py", "a.mp3"] (fun _ => true) (.error "boom") =
      .errExit "Error during transcription: boom" ∧
    cliMain ["transcribe.py", "a.mp3"] (fun _ => true) (.ok ⟨some " x ", none⟩) =
      .okExit { transcription := "x", language := "unknown", success := true } :=
  ⟨cli_contract.1 ["transcribe.py"] (fun _ => true) (.ok ⟨some "x", some "en"⟩) (by decide),
   cli_contract.2.1 "transcribe.py" "a.mp3" (fun _ => false) (.ok ⟨some "x", some "en"⟩) rfl,
   cli_contract.2.2.1 "transcribe.py" "a.mp3" (fun _ => true) "boom" rfl,
   cli_contract.2.2.2 "transcribe.py" "a.mp3" (fun _ => true) ⟨some " x ", none⟩ " x " rfl rfl⟩

/-- Counterexample to C7: the upload `audio` with content type
`audio/mpeg` is accepted and staged, its filename is present but has no
dot, so `os.path.splitext` yields an empty suffix; the staged name is
the bare temporary base: it neither ends in the generic `.tmp` fallback
nor carries any extension. -/
theorem staged_suffix_counterexample :
    (transcribe_audio true ⟨some "audio", some "audio/mpeg", []⟩ sampleWorld).2 =
      [Event.stage "tmp123", Event.unlinkOk "tmp123"] ∧
    stagedSuffix (some "audio") = "" ∧
    splitext "tmp123" = ("tmp123", "") ∧
    endsWithL "tmp123" ".tmp" = false :=
  ⟨by decide, rfl, by decide, by decide⟩

/-- C7 as amended: every staged file's name is the unique temporary base
plus the filename's `splitext` extension when the filename is present
and non-empty (this suffix is empty when the filename has no dot), and
plus the generic `.tmp` fallback when the filename is absent or empty;
a staged name may therefore carry no extension at all. -/
theorem staged_name_suffix (m : Bool) (u : Upload) (w : World) (n : String)
    (hstage : Event.stage n ∈ (transcribe_audio m u w).2) :
    (∀ f, u.filename = some f → f ≠ "" → n = w.tempBase ++ (splitext f).2) ∧
    ((u.filename = none ∨ u.filename = some "") → n = w.tempBase ++ ".tmp") := by
  obtain ⟨hshape, _⟩ := transcribe_trace_shape m u w
  rcases hshape with h | h
  · rw [h] at hstage
    simp at hstage
  · have hn : n = w.tempBase ++ stagedSuffix u.filename := by
      rw [h] at hstage
      cases huf : w.unlinkFails <;> simp [cleanupEvents, huf] at hstage <;>
        exact hstage
    subst hn
    constructor
    · intro f hf hne
      rw [hf]
      simp [stagedSuffix, hne]
    · rintro (hf | hf) <;> rw [hf] <;> simp [stagedSuffix]

/-- Witness for the amended C7: a `b.wav` upload is staged under the
temporary base plus `.wav`. -/
theorem staged_name_suffix_witness :
    "tmp123.wav" = "tmp123" ++ (splitext "b.wav").2 :=
  (staged_name_suffix true ⟨some "b.wav", some "audio/wav", []⟩ sampleWorld
      "tmp123.wav" (by decide)).1 "b.wav" rfl (by decide)

/-- Helper: no operation of the service clears the `model` global once
it is set; only a successful startup load writes it. -/
theorem serverStep_preserves_loaded (s : ServerState) (e : ServerEvent)
    (hs : s.model.isSome = true) : (serverStep s e).model.isSome = true := by
  cases e with
  | startupLoad r =>
      cases r with
      | ok m => rfl
      | error msg => exact hs
  | getRoot => exact hs
  | getHealth => exact hs
  | postTranscribe u w => exact hs

/-- C8: Before startup completes, `/health` reports `model_loaded:
false` and status `"unhealthy"`; a successful load sets the model, after
which `/health` reports `model_loaded: true` and `"healthy"`; and under
every sequence of further operations the model stays set (readiness
never reverts). -/
theorem readiness_monotone :
    (health_check initState).model_loaded = false ∧
    (health_check initState).status = "unhealthy" ∧
    (∀ (s : ServerState) (m : ModelHandle),
        serverStep s (.startupLoad (.ok m)) = { model := some m }) ∧
    (∀ (s : ServerState) (m : ModelHandle), s.model = some m →
        (health_check s).model_loaded = true ∧ (health_check s).status = "healthy") ∧
    (∀ (s : ServerState) (es : List ServerEvent),
        s.model.isSome = true → ((es.foldl serverStep s).model.isSome = true)) := by
  refine ⟨rfl, rfl, fun s m => rfl, ?_, ?_⟩
  · intro s m hm
    simp [health_check, hm]
  · intro s es hs
    induction es generalizing s with
    | nil => exact hs
    | cons e es ih => exact ih (serverStep s e) (serverStep_preserves_loaded s e hs)

/-- Witness for C8: a loaded state stays loaded and healthy across a
concrete sequence of requests. -/
theorem readiness_monotone_witness :
    (List.foldl serverStep { model := some ⟨0⟩ }
        [ServerEvent.getHealth, ServerEvent.getRoot]).model.isSome = true ∧
    (health_check { model := some ⟨0⟩ }).status = "healthy" :=
  ⟨readiness_monotone.2.2.2.2 { model := some ⟨0⟩ }
      [ServerEvent.getHealth, ServerEvent.getRoot] rfl,
   (readiness_monotone.2.2.2.1 { model := some ⟨0⟩ } ⟨0⟩ rfl).2⟩

/-- Counterexample to C9: on an engine result with no `text` field the
two programs do not handle the omission the same way — the service
defaults the transcription to the empty string and succeeds, while the
CLI's `result["text"]` raises `KeyError` and it reports an error. -/
theorem cli_service_missing_text_divergence :
    (transcribe_audio true ⟨some "a.mp3", some "audio/mpeg", []⟩
        { sampleWorld with transcribeResult := .ok { text := none, language := some "en" } }).1 =
      .ok { filename := some "a.mp3", transcription := "", language := "en", success := true } ∧
    cliMain ["transcribe.py", "a.mp3"] (fun _ => true)
        (.ok { text := none, language := some "en" }) =
      .errExit "Error during transcription: 'text'" :=
  ⟨by decide, by decide⟩

/-- C9 as amended: on every engine result on which both programs
succeed (equivalently, whose `text` field is present), the CLI's
transcription, language and success flag equal the corresponding fields
of the service's response: same trimming, same "unknown" default; a
missing `text` field, however, is handled differently (service:
empty transcription and success; CLI: error). -/
theorem cli_refines_service (u : Upload) (w : World) (r : EngineResult) (t : String)
    (prog path : String) (fex : String → Bool)
    (hv : validate u.contentType u.filename = .accept)
    (hc : w.createFails = none) (hw : w.writeFails = none)
    (htr : w.transcribeResult = .ok r) (ht : r.text = some t)
    (hfex : fex path = true) :
    (transcribe_audio true u w).1 = .ok (buildResponse u.filename r) ∧
    cliMain [prog, path] fex (.ok r) =
      .okExit { transcription := (buildResponse u.filename r).transcription
              , language := (buildResponse u.filename r).language
              , success := (buildResponse u.filename r).success } := by
  refine ⟨transcribe_ok_outcome u w r hv hc hw htr, ?_⟩
  simp [cliMain, hfex, cliTranscribeStep, ht, buildResponse]

/-- Witness for the amended C9 at the engine result
`{text: " hello ", language: "en"}`. -/
theorem cli_refines_service_witness :
    (transcribe_audio true ⟨some "a.mp3", some "audio/mpeg", []⟩ sampleWorld).1 =
      .ok (buildResponse (some "a.mp3") { text := some " hello ", language := some "en" }) ∧
    cliMain ["transcribe.py", "a.mp3"] (fun _ => true)
        (.ok { text := some " hello ", language := some "en" }) =
      .okExit { transcription := "hello", language := "en", success := true } :=
  cli_refines_service ⟨some "a.mp3", some "audio/mpeg", []⟩ sampleWorld
    { text := some " hello ", language := some "en" } " hello "
    "transcribe.py" "a.mp3" (fun _ => true) (by decide) rfl rfl rfl rfl rfl

end WhisperService
